import Mathlib

/-!
Verification of the expression type/schema resolution engine of the
DataFusion logical planning layer (`core/src/logical_plan/expr_schema.rs`),
shallowly embedded in Lean 4.

The expression grammar `Expr`, the error type, and the four operations
`getType`, `nullable`, `toField` and `castTo` are translated from the
Rust source.  External collaborators (the schema lookup, the operator
type-combination rule, the function-signature resolvers, the
cast-compatibility predicate, the nested-field lookup, and the canonical
expression naming) are modelled as explicit oracle parameters, exactly as
the source consumes them through traits and external crates.
-/

namespace DataFusion

/-- Arrow data types.  The concrete catalog is external to the resolver
(`arrow::datatypes::DataType`); it is modelled as an open-ended type with
decidable equality, which is all the resolver observes of it besides the
textual rendering used in error messages. -/
inductive DataType where
  | Boolean
  | Int32
  | Int64
  | Float64
  | Utf8
  | Other (n : Nat)
deriving DecidableEq

/-- Debug-style textual rendering of a data type, modelling the Rust
`{:?}` formatting used in the illegal-cast error message. -/
def DataType.render : DataType → String
  | .Boolean => "Boolean"
  | .Int32 => "Int32"
  | .Int64 => "Int64"
  | .Float64 => "Float64"
  | .Utf8 => "Utf8"
  | .Other n => "Other " ++ toString n

/-- A scalar value (`datafusion_common::ScalarValue`), external to the
resolver, which only observes its data type (`get_datatype`) and whether
it is the null value (`is_null`). -/
structure ScalarValue where
  dataType : DataType
  isNull : Bool
deriving DecidableEq

/-- A column reference: optional relation qualifier plus column name
(`datafusion_common::Column`). -/
structure Column where
  relation : Option String
  name : String
deriving DecidableEq

/-- A field of a DataFusion schema (`datafusion_common::DFField`):
optional qualifier, name, data type, nullability.  Field order matches
the argument order of `DFField::new`. -/
structure DFField where
  qualifier : Option String
  name : String
  dataType : DataType
  nullable : Bool
deriving DecidableEq

/-- An Arrow field as returned by the external nested-field lookup
(`datafusion_expr::field_util::get_indexed_field`); the resolver only
observes its data type and nullability. -/
structure ArrowField where
  dataType : DataType
  nullable : Bool
deriving DecidableEq

/-- Binary operators (`datafusion::logical_plan::Operator`).  Their
semantics live entirely in the external operator type-combination rule,
so the catalog is modelled as an open-ended set of tags. -/
inductive Operator where
  | Plus
  | Minus
  | Multiply
  | Divide
  | Eq
  | And
  | Or
  | Other (n : Nat)
deriving DecidableEq

/-- The DataFusion error type (`datafusion_common::DataFusionError`),
restricted to the constructors this module produces.  The extra
constructor `Panic` models a Rust panic (such as an out-of-bounds index):
it is never a returned error value in the Rust source, where it aborts
the computation instead. -/
inductive DataFusionError where
  | Internal (msg : String)
  | Plan (msg : String)
  | SchemaError (msg : String)
  | ArrowError (msg : String)
  | Panic (msg : String)
deriving DecidableEq

/-- The logical expression grammar (`datafusion::logical_plan::Expr`),
with exactly the variants matched by `expr_schema.rs`.  Function
identities are opaque tags resolved through the oracle bundle.  The Rust
`Sort` variant is spelled `SortExpr` because `Sort` is a Lean keyword. -/
inductive Expr where
  | Alias (expr : Expr) (name : String)
  | Column (c : Column)
  | ScalarVariable (dataType : DataType) (names : List String)
  | Literal (value : ScalarValue)
  | BinaryExpr (left : Expr) (op : Operator) (right : Expr)
  | Not (expr : Expr)
  | IsNotNull (expr : Expr)
  | IsNull (expr : Expr)
  | Negative (expr : Expr)
  | GetIndexedField (expr : Expr) (key : ScalarValue)
  | Between (expr : Expr) (negated : Bool) (low : Expr) (high : Expr)
  | Case (base : Option Expr) (whenThenExpr : List (Expr × Expr))
      (elseExpr : Option Expr)
  | Cast (expr : Expr) (dataType : DataType)
  | TryCast (expr : Expr) (dataType : DataType)
  | SortExpr (expr : Expr) (asc : Bool) (nullsFirst : Bool)
  | ScalarFunction (fn : Nat) (args : List Expr)
  | ScalarUDF (fn : Nat) (args : List Expr)
  | WindowFunction (fn : Nat) (args : List Expr)
  | AggregateFunction (fn : Nat) (args : List Expr)
  | AggregateUDF (fn : Nat) (args : List Expr)
  | InList (expr : Expr) (list : List Expr) (negated : Bool)
  | Wildcard
  | QualifiedWildcard (qualifier : String)

/-- The schema capability (`datafusion_common::ExprSchema` trait): per
column reference, its declared data type and nullability, each fallible
with a column-not-found condition. -/
structure ExprSchema where
  dataType : Column → Except DataFusionError DataType
  nullableCol : Column → Except DataFusionError Bool

/-- The bundle of external oracles the resolver consumes: the operator
type-combination rule (`binary_operator_data_type`), the
cast-compatibility predicate (`arrow::compute::can_cast_types`), the
return-type resolvers for built-in and user-defined scalar, window and
aggregate functions, the nested-field lookup (`get_indexed_field`), and
the canonical expression naming.

The naming oracle is modelled from the spec: canonical expression naming
(`Expr::name`, defined outside this module) is a deterministic textual
rendering of an expression, used to name derived fields. -/
structure Oracles where
  binaryOperatorDataType :
    DataType → Operator → DataType → Except DataFusionError DataType
  canCastTypes : DataType → DataType → Bool
  scalarUdfReturnType : Nat → List DataType → Except DataFusionError DataType
  functionReturnType : Nat → List DataType → Except DataFusionError DataType
  windowReturnType : Nat → List DataType → Except DataFusionError DataType
  aggregateReturnType : Nat → List DataType → Except DataFusionError DataType
  aggregateUdfReturnType : Nat → List DataType → Except DataFusionError DataType
  getIndexedField : DataType → ScalarValue → Except DataFusionError ArrowField
  nameOf : Expr → Except DataFusionError String

/-- The panic raised by `when_then_expr[0]` on an empty list. -/
def indexPanicMsg : String :=
  "index out of bounds: the len is 0 but the index is 0"

/-- Error message for a wildcard encountered during resolution. -/
def wildcardErrMsg : String :=
  "Wildcard expressions are not valid in a logical query plan"

/-- Error message for a qualified wildcard encountered during resolution. -/
def qualifiedWildcardErrMsg : String :=
  "QualifiedWildcard expressions are not valid in a logical query plan"

mutual

/-- Translation of `Expr::get_type` from `expr_schema.rs`: the data type
of an expression with respect to a schema.  `when_then_expr[0]` in the
`Case` arm panics on an empty list; the panic is modelled by the
distinguished `Panic` error. -/
def getType (o : Oracles) (s : ExprSchema) : Expr → Except DataFusionError DataType
  | .Alias e _ => getType o s e
  | .SortExpr e _ _ => getType o s e
  | .Negative e => getType o s e
  | .Column c => s.dataType c
  | .ScalarVariable ty _ => .ok ty
  | .Literal l => .ok l.dataType
  | .Case _ whenThen _ =>
    match whenThen with
    | [] => .error (.Panic indexPanicMsg)
    | (_, t) :: _ => getType o s t
  | .Cast _ dt => .ok dt
  | .TryCast _ dt => .ok dt
  | .ScalarUDF fn args => do
    let dataTypes ← getTypeList o s args
    o.scalarUdfReturnType fn dataTypes
  | .ScalarFunction fn args => do
    let dataTypes ← getTypeList o s args
    o.functionReturnType fn dataTypes
  | .WindowFunction fn args => do
    let dataTypes ← getTypeList o s args
    o.windowReturnType fn dataTypes
  | .AggregateFunction fn args => do
    let dataTypes ← getTypeList o s args
    o.aggregateReturnType fn dataTypes
  | .AggregateUDF fn args => do
    let dataTypes ← getTypeList o s args
    o.aggregateUdfReturnType fn dataTypes
  | .Not _ => .ok .Boolean
  | .IsNull _ => .ok .Boolean
  | .Between _ _ _ _ => .ok .Boolean
  | .InList _ _ _ => .ok .Boolean
  | .IsNotNull _ => .ok .Boolean
  | .BinaryExpr l op r => do
    let lt ← getType o s l
    let rt ← getType o s r
    o.binaryOperatorDataType lt op rt
  | .Wildcard => .error (.Internal wildcardErrMsg)
  | .QualifiedWildcard _ => .error (.Internal qualifiedWildcardErrMsg)
  | .GetIndexedField e key => do
    let dt ← getType o s e
    (o.getIndexedField dt key).map (·.dataType)

/-- Fail-fast resolution of the types of a list of argument expressions,
translating `args.iter().map(|e| e.get_type(schema)).collect::<Result<Vec<_>>>()`. -/
def getTypeList (o : Oracles) (s : ExprSchema) :
    List Expr → Except DataFusionError (List DataType)
  | [] => .ok []
  | e :: es => do
    let t ← getType o s e
    let ts ← getTypeList o s es
    .ok (t :: ts)

end

mutual

/-- Translation of `Expr::nullable` from `expr_schema.rs`: whether an
expression can yield a null value, with respect to a schema.  The
`BinaryExpr` arm preserves the short-circuit of the Rust expression
`Ok(left.nullable(input_schema)? || right.nullable(input_schema)?)`. -/
def nullable (o : Oracles) (s : ExprSchema) : Expr → Except DataFusionError Bool
  | .Alias e _ => nullable o s e
  | .Not e => nullable o s e
  | .Negative e => nullable o s e
  | .SortExpr e _ _ => nullable o s e
  | .Between e _ _ _ => nullable o s e
  | .InList e _ _ => nullable o s e
  | .Column c => s.nullableCol c
  | .Literal v => .ok v.isNull
  | .Case _ whenThen elseExpr => do
    let thenNullable ← nullableThens o s whenThen
    if thenNullable.contains true then
      .ok true
    else
      match elseExpr with
      | some e => nullable o s e
      | none => .ok false
  | .Cast e _ => nullable o s e
  | .ScalarVariable _ _ => .ok true
  | .TryCast _ _ => .ok true
  | .ScalarFunction _ _ => .ok true
  | .ScalarUDF _ _ => .ok true
  | .WindowFunction _ _ => .ok true
  | .AggregateFunction _ _ => .ok true
  | .AggregateUDF _ _ => .ok true
  | .IsNull _ => .ok false
  | .IsNotNull _ => .ok false
  | .BinaryExpr l _ r => do
    let ln ← nullable o s l
    if ln then .ok true else nullable o s r
  | .Wildcard => .error (.Internal wildcardErrMsg)
  | .QualifiedWildcard _ => .error (.Internal qualifiedWildcardErrMsg)
  | .GetIndexedField e key => do
    let dt ← getType o s e
    (o.getIndexedField dt key).map (·.nullable)

/-- Fail-fast nullability resolution of the "then" branches of a `Case`,
translating
`when_then_expr.iter().map(|(_, t)| t.nullable(input_schema)).collect::<Result<Vec<_>>>()`. -/
def nullableThens (o : Oracles) (s : ExprSchema) :
    List (Expr × Expr) → Except DataFusionError (List Bool)
  | [] => .ok []
  | (_, t) :: rest => do
    let b ← nullable o s t
    let bs ← nullableThens o s rest
    .ok (b :: bs)

end

/-- The illegal-cast error message, naming both the source and the
target type (Rust `format!("Cannot automatically convert {:?} to {:?}", ...)`). -/
def castErrMsg (src tgt : DataType) : String :=
  "Cannot automatically convert " ++ src.render ++ " to " ++ tgt.render

/-- Translation of `Expr::cast_to` from `expr_schema.rs`: resolve the
expression's current type; if it already equals the target, return the
expression unchanged; otherwise wrap it in a `Cast` when the
compatibility predicate allows, and fail with a plan error otherwise. -/
def castTo (o : Oracles) (s : ExprSchema) (e : Expr) (castToType : DataType) :
    Except DataFusionError Expr := do
  let thisType ← getType o s e
  if thisType = castToType then
    .ok e
  else if o.canCastTypes thisType castToType then
    .ok (.Cast e castToType)
  else
    .error (.Plan (castErrMsg thisType castToType))

/-- Translation of `Expr::to_field` from `expr_schema.rs`: for a column
reference the field takes the column's qualifier and name verbatim; for
any other expression the qualifier is absent and the name is the
canonical rendering from the naming oracle.  The evaluation order of the
fallible sub-calls follows the Rust argument order of `DFField::new`. -/
def toField (o : Oracles) (s : ExprSchema) (e : Expr) :
    Except DataFusionError DFField :=
  match e with
  | .Column c => do
    let ty ← getType o s (.Column c)
    let nl ← nullable o s (.Column c)
    .ok ⟨c.relation, c.name, ty, nl⟩
  | _ => do
    let nm ← o.nameOf e
    let ty ← getType o s e
    let nl ← nullable o s e
    .ok ⟨none, nm, ty, nl⟩

/-- Whether the expression is a bare column reference (the discriminant
`to_field` dispatches on). -/
def Expr.isColumn : Expr → Bool
  | .Column _ => true
  | _ => false

/-- A concrete oracle bundle used to evaluate the resolvers on concrete
inputs: the operator rule requires equal operand types, casting is
allowed exactly from `Int32` to `Utf8`, every function returns `Int32`,
nested fields resolve to a non-nullable `Int32`, and every expression is
named `expr`. -/
def sampleOracles : Oracles where
  binaryOperatorDataType := fun l _ r =>
    if l = r then .ok l else .error (.Plan "incompatible operand types")
  canCastTypes := fun a b =>
    match a, b with
    | .Int32, .Utf8 => true
    | _, _ => false
  scalarUdfReturnType := fun _ _ => .ok .Int32
  functionReturnType := fun _ _ => .ok .Int32
  windowReturnType := fun _ _ => .ok .Int32
  aggregateReturnType := fun _ _ => .ok .Int32
  aggregateUdfReturnType := fun _ _ => .ok .Int32
  getIndexedField := fun _ _ => .ok ⟨.Int32, false⟩
  nameOf := fun _ => .ok "expr"

/-- A concrete schema with a single non-nullable `Int32` column `a`. -/
def sampleSchema : ExprSchema where
  dataType := fun c =>
    match c.name with
    | "a" => .ok .Int32
    | _ => .error (.SchemaError ("No field named " ++ c.name))
  nullableCol := fun c =>
    match c.name with
    | "a" => .ok false
    | _ => .error (.SchemaError ("No field named " ++ c.name))

end DataFusion

namespace DataFusion

/-- Reduction of the `Except` monad's bind on a success value. -/
@[simp]
theorem ok_bind {ε α β : Type} (a : α) (f : α → Except ε β) :
    (Except.ok a >>= f) = f a := rfl

/-- Reduction of the `Except` monad's bind on an error value. -/
@[simp]
theorem error_bind {ε α β : Type} (e : ε) (f : α → Except ε β) :
    ((Except.error e : Except ε α) >>= f) = Except.error e := rfl

/-- Reduction of `Except.map` on a success value. -/
@[simp]
theorem exceptMap_ok {ε α β : Type} (f : α → β) (a : α) :
    Except.map f (Except.ok a : Except ε α) = Except.ok (f a) := rfl

/-- Reduction of `Except.map` on an error value. -/
@[simp]
theorem exceptMap_error {ε α β : Type} (f : α → β) (e : ε) :
    Except.map f (Except.error e : Except ε α) = Except.error e := rfl

/-- C1 counterexample: a `Case` expression with no else-branch and a
single non-nullable "then" branch resolves its nullability successfully
to `false`, refuting the claim that `resolve_nullable` of a no-else
`Case` is always `true`. -/
theorem case_no_else_not_always_nullable_cex :
    nullable sampleOracles sampleSchema
      (.Case none [(.Literal ⟨.Boolean, false⟩, .Literal ⟨.Int32, false⟩)] none)
      = .ok false := rfl

/-- C1 (amended): for a `Case` expression with no else-branch, when the
"then" branches' nullabilities all resolve, `nullable` returns `true`
iff at least one "then" branch is nullable — and in particular `false`,
not `true`, when no "then" branch is nullable. -/
theorem case_no_else_nullable_iff_some_then_nullable
    (o : Oracles) (s : ExprSchema) (base : Option Expr)
    (wt : List (Expr × Expr)) :
    nullable o s (.Case base wt none)
      = (nullableThens o s wt).map (fun bs => bs.contains true) := by
  simp only [nullable]
  cases h : nullableThens o s wt with
  | error e => simp [h]
  | ok bs => by_cases hm : true ∈ bs <;> simp [h, hm]

/-- C2: when both operands of a binary expression resolve their
nullability successfully, the binary expression's nullability resolves
to the boolean OR of the two: `true` iff at least one operand is
nullable. -/
theorem binary_nullable_or
    (o : Oracles) (s : ExprSchema) (l r : Expr) (op : Operator) (a b : Bool)
    (h1 : nullable o s l = .ok a) (h2 : nullable o s r = .ok b) :
    nullable o s (.BinaryExpr l op r) = .ok (a || b) := by
  simp only [nullable, h1, ok_bind]
  cases a with
  | true => simp
  | false => simp [h2]

/-- C2 witness: a binary expression over a nullable literal and the
non-nullable column `a` is nullable. -/
theorem binary_nullable_or_witness :
    nullable sampleOracles sampleSchema
      (.BinaryExpr (.Literal ⟨.Utf8, true⟩) .Plus (.Column ⟨none, "a"⟩))
      = .ok (true || false) :=
  binary_nullable_or sampleOracles sampleSchema _ _ .Plus true false rfl rfl

/-- C3: when the expression's type resolves to exactly the requested
target type, `cast_to` returns the original expression unchanged, with
no `Cast` wrapper added. -/
theorem cast_to_same_type_id
    (o : Oracles) (s : ExprSchema) (e : Expr) (t : DataType)
    (h : getType o s e = .ok t) :
    castTo o s e t = .ok e := by
  simp [castTo, h]

/-- C3 witness: casting an `Int32` literal to `Int32` returns the
literal itself. -/
theorem cast_to_same_type_id_witness :
    castTo sampleOracles sampleSchema (.Literal ⟨.Int32, false⟩) .Int32
      = .ok (.Literal ⟨.Int32, false⟩) :=
  cast_to_same_type_id sampleOracles sampleSchema _ .Int32 rfl

/-- C4: when the expression's type resolves to a type different from the
target, `cast_to` succeeds iff the external cast-compatibility predicate
accepts the (source, target) pair, and on rejection it fails with a
plan-level error whose message names both the source and the target
type. -/
theorem cast_to_incompatible_fails
    (o : Oracles) (s : ExprSchema) (e : Expr) (t tgt : DataType)
    (h : getType o s e = .ok t) (hne : t ≠ tgt) :
    ((castTo o s e tgt).isOk = o.canCastTypes t tgt) ∧
    (o.canCastTypes t tgt = false →
      castTo o s e tgt = .error (.Plan (castErrMsg t tgt))) ∧
    ∃ u v, castErrMsg t tgt = u ++ t.render ++ v ++ tgt.render := by
  refine ⟨?_, ?_, "Cannot automatically convert ", " to ", rfl⟩
  · simp only [castTo, h, ok_bind, if_neg hne]
    cases hc : o.canCastTypes t tgt <;> simp [hc, Except.isOk, Except.toBool]
  · intro hc
    simp [castTo, h, hne, hc]

/-- C4 witness: casting a `Utf8` literal to `Int32` is rejected by the
sample compatibility predicate and yields the plan error naming both
types. -/
theorem cast_to_incompatible_fails_witness :
    castTo sampleOracles sampleSchema (.Literal ⟨.Utf8, false⟩) .Int32
      = .error (.Plan (castErrMsg .Utf8 .Int32)) :=
  (cast_to_incompatible_fails sampleOracles sampleSchema
    (.Literal ⟨.Utf8, false⟩) .Utf8 .Int32 rfl (by decide)).2.1 rfl

/-- C5 counterexample: `Not` over a null literal is nullable while `Not`
over a non-null literal is not, so `Not`'s nullability does depend on
its sub-expression, refuting the claim that it is fixed. -/
theorem not_nullability_depends_on_operand_cex :
    nullable sampleOracles sampleSchema (.Not (.Literal ⟨.Utf8, true⟩))
        = .ok true ∧
    nullable sampleOracles sampleSchema (.Not (.Literal ⟨.Utf8, false⟩))
        = .ok false :=
  ⟨rfl, rfl⟩

/-- C5 (amended): `Not`, `IsNull` and `IsNotNull` all resolve to the
boolean type; `IsNull` and `IsNotNull` are always non-nullable
regardless of the operand; `Not` forwards its operand's nullability
(so its nullability does depend on the sub-expression). -/
theorem not_isnull_isnotnull_resolution
    (o : Oracles) (s : ExprSchema) (e : Expr) :
    getType o s (.Not e) = .ok .Boolean ∧
    getType o s (.IsNull e) = .ok .Boolean ∧
    getType o s (.IsNotNull e) = .ok .Boolean ∧
    nullable o s (.IsNull e) = .ok false ∧
    nullable o s (.IsNotNull e) = .ok false ∧
    nullable o s (.Not e) = nullable o s e :=
  ⟨rfl, rfl, rfl, rfl, rfl, rfl⟩

/-- C6: for every schema and oracle bundle, type and nullability
resolution of `Wildcard` and `QualifiedWildcard` fail with the
invalid-in-context internal error; neither ever succeeds. -/
theorem wildcard_resolution_always_fails
    (o : Oracles) (s : ExprSchema) (q : String) :
    getType o s .Wildcard = .error (.Internal wildcardErrMsg) ∧
    nullable o s .Wildcard = .error (.Internal wildcardErrMsg) ∧
    getType o s (.QualifiedWildcard q)
        = .error (.Internal qualifiedWildcardErrMsg) ∧
    nullable o s (.QualifiedWildcard q)
        = .error (.Internal qualifiedWildcardErrMsg) :=
  ⟨rfl, rfl, rfl, rfl⟩

/-- C7: whenever `cast_to` succeeds, the type of the returned expression
resolves to exactly the requested target type, whether the result is the
unchanged original or a new `Cast` wrapper. -/
theorem cast_to_result_type
    (o : Oracles) (s : ExprSchema) (e e' : Expr) (tgt : DataType)
    (h : castTo o s e tgt = .ok e') :
    getType o s e' = .ok tgt := by
  unfold castTo at h
  cases hg : getType o s e with
  | error err => rw [hg] at h; simp at h
  | ok t =>
    rw [hg, ok_bind] at h
    by_cases ht : t = tgt
    · rw [if_pos ht] at h
      injection h with h2
      subst h2
      rw [hg, ht]
    · rw [if_neg ht] at h
      by_cases hc : o.canCastTypes t tgt = true
      · rw [if_pos hc] at h
        injection h with h2
        subst h2
        rfl
      · rw [if_neg hc] at h
        simp at h

/-- C7 witness: casting the `Int32` literal to `Utf8` wraps it in a
`Cast` node whose resolved type is `Utf8`. -/
theorem cast_to_result_type_witness :
    getType sampleOracles sampleSchema
      (.Cast (.Literal ⟨.Int32, false⟩) .Utf8) = .ok .Utf8 :=
  cast_to_result_type sampleOracles sampleSchema
    (.Literal ⟨.Int32, false⟩) (.Cast (.Literal ⟨.Int32, false⟩) .Utf8)
    .Utf8 rfl

/-- C8: the type of a `Case` expression with a non-empty
(when, then) list is exactly the resolved type of the first "then"
expression; later branches and the else-branch are ignored. -/
theorem case_type_from_first_then
    (o : Oracles) (s : ExprSchema) (base : Option Expr) (w t : Expr)
    (rest : List (Expr × Expr)) (els : Option Expr) :
    getType o s (.Case base ((w, t) :: rest) els) = getType o s t := rfl

/-- C9: type resolution of a `Case` expression with an empty
(when, then) list performs an out-of-bounds index — modelled by the
distinguished `Panic` outcome, which no other arm of the resolver
produces — rather than returning a regular error value; the operation is
total only under the precondition that the list is non-empty. -/
theorem case_empty_when_then_panics
    (o : Oracles) (s : ExprSchema) (base els : Option Expr) :
    getType o s (.Case base [] els) = .error (.Panic indexPanicMsg) := rfl

/-- C10: whenever type and nullability resolution succeed, `to_field` of
a column reference produces a field whose qualifier and name are taken
verbatim from the column, and `to_field` of any other expression (whose
canonical name also resolves) produces a field with no qualifier, named
by the canonical rendering; in both cases type and nullability are the
resolved ones. -/
theorem to_field_naming
    (o : Oracles) (s : ExprSchema) (e : Expr) (ty : DataType) (nl : Bool)
    (hty : getType o s e = .ok ty) (hnl : nullable o s e = .ok nl) :
    (∀ c, e = .Column c → toField o s e = .ok ⟨c.relation, c.name, ty, nl⟩) ∧
    (∀ nm, e.isColumn = false → o.nameOf e = .ok nm →
      toField o s e = .ok ⟨none, nm, ty, nl⟩) := by
  constructor
  · rintro c rfl
    simp [toField, hty, hnl]
  · intro nm hcol hnm
    cases e <;> simp_all [toField, Expr.isColumn]

/-- C10 witness: the qualified column `t.a` projects to the field
`(t, a, Int32, non-nullable)`. -/
theorem to_field_naming_witness :
    toField sampleOracles sampleSchema (.Column ⟨some "t", "a"⟩)
      = .ok ⟨some "t", "a", .Int32, false⟩ :=
  (to_field_naming sampleOracles sampleSchema (.Column ⟨some "t", "a"⟩)
    .Int32 false rfl rfl).1 ⟨some "t", "a"⟩ rfl

end DataFusion
